import Mathlib

/-! ViGEmBus: plug-in and unplug of emulated targets (`sys/busenum.cpp`).

A shallow embedding of `Bus_PlugInDevice` and `Bus_UnPlugDevice`.  The two
functions are translated statement by statement.  What they call but do not
define (the framework's request and child-list calls, the target classes, the
record sizes) is kept apart in its own definitions or taken as a parameter.
-/

namespace ViGEm

/-! ## Status codes -/

/-- An `NTSTATUS` value, read as an unsigned 32-bit number. -/
abbrev NTSTATUS := Nat

def STATUS_SUCCESS : NTSTATUS := 0x00000000
def STATUS_OBJECT_NAME_EXISTS : NTSTATUS := 0x40000000
def STATUS_NO_MORE_ENTRIES : NTSTATUS := 0x8000001A
def STATUS_INVALID_PARAMETER : NTSTATUS := 0xC000000D
def STATUS_NO_SUCH_DEVICE : NTSTATUS := 0xC000000E
def STATUS_BUFFER_TOO_SMALL : NTSTATUS := 0xC0000023
def STATUS_INSUFFICIENT_RESOURCES : NTSTATUS := 0xC000009A
def STATUS_NOT_SUPPORTED : NTSTATUS := 0xC00000BB

/-- The macro `NT_SUCCESS`: the status, as a signed 32-bit number, is not negative. -/
def NT_SUCCESS (status : NTSTATUS) : Bool := decide (status % 2 ^ 32 < 2 ^ 31)

/-! ## Records of the control interface -/

/-- The tag `TargetType` of a plug-in record.  The switch of `Bus_PlugInDevice`
has the two cases `Xbox360Wired` and `DualShock4Wired`; every other number the
caller may have written is `other`. -/
inductive VIGEM_TARGET_TYPE where
  | Xbox360Wired
  | DualShock4Wired
  | other (raw : Nat)
  deriving DecidableEq, Repr

/-- The record `VIGEM_PLUGIN_TARGET` as the caller wrote it. -/
structure VIGEM_PLUGIN_TARGET where
  Size : Nat
  SerialNo : Nat
  TargetType : VIGEM_TARGET_TYPE
  VendorId : Nat
  ProductId : Nat
  deriving DecidableEq, Repr

/-- The record `VIGEM_UNPLUG_TARGET` as the caller wrote it. -/
structure VIGEM_UNPLUG_TARGET where
  Size : Nat
  SerialNo : Nat
  deriving DecidableEq, Repr

/-- Per-handle context data; the functions read its `SessionId` (a `LONG`) only. -/
structure FDO_FILE_DATA where
  SessionId : Int
  deriving DecidableEq, Repr

/-- A file object; `FileObjectGetData` yields its context data, or `NULL`. -/
structure WDFFILEOBJECT where
  FileData : Option FDO_FILE_DATA
  deriving DecidableEq, Repr

/-- A request with an input buffer holding a record of type `β`: the record,
the length of the buffer in bytes, and the file object (or `NULL`). -/
structure WDFREQUEST (β : Type) where
  InputBuffer : β
  InputBufferLength : Nat
  FileObject : Option WDFFILEOBJECT

/-- What the headers that are not part of this file fix: the two record sizes
and the default vendor and product id of each target class. -/
structure Platform where
  sizeofPlugIn : Nat
  sizeofUnplug : Nat
  xusbVendorId : Nat
  xusbProductId : Nat
  ds4VendorId : Nat
  ds4ProductId : Nat
  deriving DecidableEq, Repr

/-! ## Emulation targets -/

/-- The class behind a target object. -/
inductive TargetClass where
  | XUSB
  | DS4
  deriving DecidableEq, Repr

/-- An emulation target object: its class and the identity it was built with. -/
structure EmulationTargetPDO where
  cls : TargetClass
  SerialNo : Nat
  SessionId : Int
  VendorId : Nat
  ProductId : Nat
  deriving DecidableEq, Repr

/-- Modelled from the spec: the constructor of `EmulationTargetXUSB`
(`XusbPdo.hpp`) is missing.  A target is created with its identity (serial
number, session id) and an optional vendor/product pair; without the pair it
has the built-in default pair of its kind. -/
def EmulationTargetXUSB (p : Platform) (Serial : Nat) (SessionId : Int)
    (ids : Option (Nat × Nat)) : EmulationTargetPDO :=
  match ids with
  | none => ⟨TargetClass.XUSB, Serial, SessionId, p.xusbVendorId, p.xusbProductId⟩
  | some (vid, pid) => ⟨TargetClass.XUSB, Serial, SessionId, vid, pid⟩

/-- Modelled from the spec: the constructor of `EmulationTargetDS4`
(`Ds4Pdo.hpp`) is missing; as for `EmulationTargetXUSB`. -/
def EmulationTargetDS4 (p : Platform) (Serial : Nat) (SessionId : Int)
    (ids : Option (Nat × Nat)) : EmulationTargetPDO :=
  match ids with
  | none => ⟨TargetClass.DS4, Serial, SessionId, p.ds4VendorId, p.ds4ProductId⟩
  | some (vid, pid) => ⟨TargetClass.DS4, Serial, SessionId, vid, pid⟩

/-! ## The child list -/

/-- The identification description of a child: the fields `Bus_PlugInDevice`
fills in. -/
structure PDO_IDENTIFICATION_DESCRIPTION where
  SerialNo : Nat
  SessionId : Int
  Target : EmulationTargetPDO
  deriving DecidableEq, Repr

/-- The presence of an entry of the child list. -/
inductive Presence where
  | Present
  | Missing
  deriving DecidableEq, Repr

/-- An entry of the child list. -/
structure ChildEntry where
  description : PDO_IDENTIFICATION_DESCRIPTION
  presence : Presence
  deriving DecidableEq, Repr

/-- The default child list of the bus device: its entries, oldest first. -/
abbrev WDFCHILDLIST := List ChildEntry

/-- An entry is present and has the serial number `s`. -/
def ChildEntry.presentWith (s : Nat) (e : ChildEntry) : Bool :=
  e.presence == Presence.Present && e.description.SerialNo == s

/-- The entry with its presence set to `Missing`. -/
def ChildEntry.asMissing (e : ChildEntry) : ChildEntry :=
  { e with presence := Presence.Missing }

/-- Modelled from the spec: `WdfChildListAddOrUpdateChildDescriptionAsPresent`
is framework code.  If an entry with this serial number is `Present` the call
answers `STATUS_OBJECT_NAME_EXISTS` and changes nothing; otherwise (no entry,
or only `Missing` ones, which the registry core does not free) a fresh
`Present` entry is created. -/
def WdfChildListAddOrUpdateChildDescriptionAsPresent (list : WDFCHILDLIST)
    (d : PDO_IDENTIFICATION_DESCRIPTION) : NTSTATUS × WDFCHILDLIST :=
  if list.any (ChildEntry.presentWith d.SerialNo) then
    (STATUS_OBJECT_NAME_EXISTS, list)
  else
    (STATUS_SUCCESS, list ++ [⟨d, Presence.Present⟩])

/-- Modelled from the spec: `WdfChildListUpdateChildDescriptionAsMissing` is
framework code.  It flips to `Missing` the `Present` entry that has the given
identification description; `STATUS_NO_SUCH_DEVICE` when there is none. -/
def WdfChildListUpdateChildDescriptionAsMissing (list : WDFCHILDLIST)
    (d : PDO_IDENTIFICATION_DESCRIPTION) : NTSTATUS × WDFCHILDLIST :=
  if list.any (fun e => e.presence == Presence.Present && e.description == d) then
    (STATUS_SUCCESS,
      list.map (fun e =>
        if e.presence == Presence.Present && e.description == d then e.asMissing else e))
  else
    (STATUS_NO_SUCH_DEVICE, list)

/-- The values of `childInfo.Status` after `WdfChildListRetrieveNextDevice`. -/
inductive WDF_CHILD_LIST_RETRIEVE_DEVICE_STATUS where
  | WdfChildListRetrieveDeviceUndefined
  | WdfChildListRetrieveDeviceSuccess
  | WdfChildListRetrieveDeviceNotYetCreated
  | WdfChildListRetrieveDeviceNoSuchDevice
  deriving DecidableEq, Repr

/-- What one successful call of `WdfChildListRetrieveNextDevice` hands out:
`childInfo.Status` and the identification description of the child. -/
structure RetrievedChild where
  Status : WDF_CHILD_LIST_RETRIEVE_DEVICE_STATUS
  description : PDO_IDENTIFICATION_DESCRIPTION
  deriving DecidableEq, Repr

/-- Modelled from the spec: `WdfChildListBeginIteration` and
`WdfChildListRetrieveNextDevice` with the flag `WdfRetrievePresentChildren` are
framework code.  The traversal is a single pass over the `Present` entries of
the list: each of them is handed out once, in order, and then the framework
answers `STATUS_NO_MORE_ENTRIES`. -/
def WdfChildListBeginIteration (list : WDFCHILDLIST) : List RetrievedChild :=
  (list.filter (fun e => e.presence == Presence.Present)).map (fun e =>
    ⟨WDF_CHILD_LIST_RETRIEVE_DEVICE_STATUS.WdfChildListRetrieveDeviceSuccess, e.description⟩)

/-! ## Requests -/

/-- The call `WdfRequestRetrieveInputBuffer` is framework code, taken by its
documented contract: it fails with `STATUS_BUFFER_TOO_SMALL` when the input
buffer is shorter than the minimum asked for, and otherwise hands out the
buffer and its length. -/
def WdfRequestRetrieveInputBuffer {β : Type} (Request : WDFREQUEST β)
    (MinimumRequiredLength : Nat) : NTSTATUS × β × Nat :=
  if Request.InputBufferLength < MinimumRequiredLength then
    (STATUS_BUFFER_TOO_SMALL, Request.InputBuffer, 0)
  else
    (STATUS_SUCCESS, Request.InputBuffer, Request.InputBufferLength)

/-- What a call leaves behind: the status returned, `*Transferred` when it was
written, the child list, and the target object allocated by the call, if any. -/
structure CallResult where
  status : NTSTATUS
  Transferred : Option Nat
  list : WDFCHILDLIST
  Target : Option EmulationTargetPDO
  deriving DecidableEq, Repr

/-! ## `Bus_PlugInDevice` -/

/-- Lines 139-184: the target object for a plug-in record, `none` for the
`default:` case of the switch. -/
def newTarget (p : Platform) (plugIn : VIGEM_PLUGIN_TARGET) (SessionId : Int) :
    Option EmulationTargetPDO :=
  if plugIn.VendorId == 0 || plugIn.ProductId == 0 then
    match plugIn.TargetType with
    | VIGEM_TARGET_TYPE.Xbox360Wired =>
        some (EmulationTargetXUSB p plugIn.SerialNo SessionId none)
    | VIGEM_TARGET_TYPE.DualShock4Wired =>
        some (EmulationTargetDS4 p plugIn.SerialNo SessionId none)
    | VIGEM_TARGET_TYPE.other _ => none
  else
    match plugIn.TargetType with
    | VIGEM_TARGET_TYPE.Xbox360Wired =>
        some (EmulationTargetXUSB p plugIn.SerialNo SessionId
          (some (plugIn.VendorId, plugIn.ProductId)))
    | VIGEM_TARGET_TYPE.DualShock4Wired =>
        some (EmulationTargetDS4 p plugIn.SerialNo SessionId
          (some (plugIn.VendorId, plugIn.ProductId)))
    | VIGEM_TARGET_TYPE.other _ => none

/-- The function `Bus_PlugInDevice`.  `list` is the default child list of
`Device`; `PdoPrepare` is the status the target's `PdoPrepare(Device)` answers.
`IsInternal` is not used by the function. -/
def Bus_PlugInDevice (p : Platform) (PdoPrepare : EmulationTargetPDO → NTSTATUS)
    (list : WDFCHILDLIST) (Request : WDFREQUEST VIGEM_PLUGIN_TARGET)
    (_IsInternal : Bool) : CallResult :=
  let (status, plugIn, length) := WdfRequestRetrieveInputBuffer Request p.sizeofPlugIn
  if !NT_SUCCESS status then
    ⟨status, none, list, none⟩
  else if p.sizeofPlugIn != plugIn.Size || length != plugIn.Size then
    ⟨STATUS_INVALID_PARAMETER, none, list, none⟩
  else if plugIn.SerialNo == 0 then
    ⟨STATUS_INVALID_PARAMETER, none, list, none⟩
  else
    -- *Transferred = length;
    match Request.FileObject with
    | none => ⟨STATUS_INVALID_PARAMETER, some length, list, none⟩
    | some fileObject =>
      match fileObject.FileData with
      | none => ⟨STATUS_INVALID_PARAMETER, some length, list, none⟩
      | some pFileData =>
        match newTarget p plugIn pFileData.SessionId with
        | none => ⟨STATUS_NOT_SUPPORTED, some length, list, none⟩
        | some Target =>
          let description : PDO_IDENTIFICATION_DESCRIPTION :=
            ⟨plugIn.SerialNo, pFileData.SessionId, Target⟩
          if !NT_SUCCESS (PdoPrepare Target) then
            -- goto pluginEnd, with `status` as it was
            ⟨status, some length, list, some Target⟩
          else
            let (status, list) :=
              WdfChildListAddOrUpdateChildDescriptionAsPresent list description
            if !NT_SUCCESS status then
              ⟨status, some length, list, some Target⟩
            else if status == STATUS_OBJECT_NAME_EXISTS then
              ⟨STATUS_INVALID_PARAMETER, some length, list, some Target⟩
            else
              ⟨status, some length, list, some Target⟩

/-! ## `Bus_UnPlugDevice` -/

/-- The loop of lines 312-369 over the children the traversal still has to
hand out.  The empty list is the answer `STATUS_NO_MORE_ENTRIES`, on which the
loop ends. -/
def unplugLoop (unplugAll : Bool) (SerialNo : Nat) (IsInternal : Bool) (SessionId : Int) :
    List RetrievedChild → WDFCHILDLIST → WDFCHILDLIST
  | [], list => list
  | childInfo :: rest, list =>
    let description := childInfo.description
    if childInfo.Status !=
        WDF_CHILD_LIST_RETRIEVE_DEVICE_STATUS.WdfChildListRetrieveDeviceSuccess then
      unplugLoop unplugAll SerialNo IsInternal SessionId rest list
    else if !unplugAll && description.SerialNo != SerialNo then
      unplugLoop unplugAll SerialNo IsInternal SessionId rest list
    else if IsInternal || description.SessionId == SessionId then
      -- the status of the call is traced only
      unplugLoop unplugAll SerialNo IsInternal SessionId rest
        (WdfChildListUpdateChildDescriptionAsMissing list description).2
    else
      unplugLoop unplugAll SerialNo IsInternal SessionId rest list

/-- The function `Bus_UnPlugDevice`; `list` is the default child list of `Device`. -/
def Bus_UnPlugDevice (p : Platform) (list : WDFCHILDLIST)
    (Request : WDFREQUEST VIGEM_UNPLUG_TARGET) (IsInternal : Bool) : CallResult :=
  let (status, unPlug, length) := WdfRequestRetrieveInputBuffer Request p.sizeofUnplug
  if !NT_SUCCESS status then
    ⟨status, none, list, none⟩
  else if p.sizeofUnplug != unPlug.Size || length != unPlug.Size then
    ⟨STATUS_INVALID_PARAMETER, none, list, none⟩
  else
    -- *Transferred = length;
    let unplugAll := unPlug.SerialNo == 0
    match Request.FileObject with
    | none => ⟨STATUS_INVALID_PARAMETER, some length, list, none⟩
    | some fileObject =>
      match fileObject.FileData with
      | none => ⟨STATUS_INVALID_PARAMETER, some length, list, none⟩
      | some pFileData =>
        ⟨STATUS_SUCCESS, some length,
          unplugLoop unplugAll unPlug.SerialNo IsInternal pFileData.SessionId
            (WdfChildListBeginIteration list) list,
          none⟩

/-- The two tests of the loop body (lines 340 and 357): the child is the one
looked for, and the caller may unplug it. -/
def unplugHits (unplugAll : Bool) (SerialNo : Nat) (IsInternal : Bool) (SessionId : Int)
    (d : PDO_IDENTIFICATION_DESCRIPTION) : Bool :=
  (unplugAll || d.SerialNo == SerialNo) && (IsInternal || d.SessionId == SessionId)

/-- What one traversal does to a single entry. -/
def unplugMark (unplugAll : Bool) (SerialNo : Nat) (IsInternal : Bool) (SessionId : Int)
    (e : ChildEntry) : ChildEntry :=
  if e.presence == Presence.Present &&
      unplugHits unplugAll SerialNo IsInternal SessionId e.description then e.asMissing else e

/-! ## Sequences of calls -/

/-- One call of the control interface, with everything it is given. -/
inductive Call where
  | plugIn (PdoPrepare : EmulationTargetPDO → NTSTATUS)
      (Request : WDFREQUEST VIGEM_PLUGIN_TARGET) (IsInternal : Bool)
  | unPlug (Request : WDFREQUEST VIGEM_UNPLUG_TARGET) (IsInternal : Bool)

/-- The child list after one call. -/
def Call.apply (p : Platform) (list : WDFCHILDLIST) : Call → WDFCHILDLIST
  | Call.plugIn PdoPrepare Request IsInternal =>
      (Bus_PlugInDevice p PdoPrepare list Request IsInternal).list
  | Call.unPlug Request IsInternal => (Bus_UnPlugDevice p list Request IsInternal).list

/-- The child list after a sequence of calls, starting from the empty list. -/
def runCalls (p : Platform) (calls : List Call) : WDFCHILDLIST :=
  calls.foldl (Call.apply p) []

/-! ## Sample inputs -/

/-- The record sizes and default ids of the shipped headers. -/
def samplePlatform : Platform := ⟨16, 8, 0x045E, 0x028E, 0x054C, 0x05C4⟩

/-- A well-formed plug-in request of session `session`. -/
def samplePlugIn (serial : Nat) (session : Int) (kind : VIGEM_TARGET_TYPE) (vid pid : Nat) :
    WDFREQUEST VIGEM_PLUGIN_TARGET :=
  ⟨⟨16, serial, kind, vid, pid⟩, 16, some ⟨some ⟨session⟩⟩⟩

/-- A well-formed unplug request of session `session`. -/
def sampleUnplug (serial : Nat) (session : Int) : WDFREQUEST VIGEM_UNPLUG_TARGET :=
  ⟨⟨8, serial⟩, 8, some ⟨some ⟨session⟩⟩⟩

/-- A present entry for an XUSB target with the default ids. -/
def sampleEntry (serial : Nat) (session : Int) : ChildEntry :=
  ⟨⟨serial, session, EmulationTargetXUSB samplePlatform serial session none⟩, Presence.Present⟩

/-! ## Status facts -/

theorem NT_SUCCESS_STATUS_SUCCESS : NT_SUCCESS STATUS_SUCCESS = true := by decide

theorem NT_SUCCESS_STATUS_OBJECT_NAME_EXISTS :
    NT_SUCCESS STATUS_OBJECT_NAME_EXISTS = true := by decide

theorem NT_SUCCESS_STATUS_BUFFER_TOO_SMALL :
    NT_SUCCESS STATUS_BUFFER_TOO_SMALL = false := by decide

theorem NT_SUCCESS_STATUS_INVALID_PARAMETER :
    NT_SUCCESS STATUS_INVALID_PARAMETER = false := by decide

theorem NT_SUCCESS_STATUS_NOT_SUPPORTED :
    NT_SUCCESS STATUS_NOT_SUPPORTED = false := by decide

/-! ## The plug-in path, case by case -/

/-- The result of `Bus_PlugInDevice` on a request that passes the checks of
lines 76-127. -/
theorem Bus_PlugInDevice_validated (p : Platform) (PdoPrepare : EmulationTargetPDO → NTSTATUS)
    (list : WDFCHILDLIST) (Request : WDFREQUEST VIGEM_PLUGIN_TARGET) (IsInternal : Bool)
    (fd : FDO_FILE_DATA)
    (hlen : Request.InputBufferLength = p.sizeofPlugIn)
    (hsize : Request.InputBuffer.Size = p.sizeofPlugIn)
    (hserial : Request.InputBuffer.SerialNo ≠ 0)
    (hfile : Request.FileObject = some ⟨some fd⟩) :
    Bus_PlugInDevice p PdoPrepare list Request IsInternal =
      match newTarget p Request.InputBuffer fd.SessionId with
      | none => ⟨STATUS_NOT_SUPPORTED, some p.sizeofPlugIn, list, none⟩
      | some T =>
        if NT_SUCCESS (PdoPrepare T) = false then
          ⟨STATUS_SUCCESS, some p.sizeofPlugIn, list, some T⟩
        else if list.any (ChildEntry.presentWith Request.InputBuffer.SerialNo) = true then
          ⟨STATUS_INVALID_PARAMETER, some p.sizeofPlugIn, list, some T⟩
        else
          ⟨STATUS_SUCCESS, some p.sizeofPlugIn,
            list ++ [⟨⟨Request.InputBuffer.SerialNo, fd.SessionId, T⟩, Presence.Present⟩],
            some T⟩ := by
  unfold Bus_PlugInDevice WdfRequestRetrieveInputBuffer
  simp only [hlen, hsize, hfile, lt_self_iff_false, if_false, NT_SUCCESS_STATUS_SUCCESS]
  simp [hserial]
  cases hT : newTarget p Request.InputBuffer fd.SessionId with
  | none => rfl
  | some T =>
    simp only [WdfChildListAddOrUpdateChildDescriptionAsPresent]
    have hne : STATUS_SUCCESS ≠ STATUS_OBJECT_NAME_EXISTS := by decide
    by_cases hp : NT_SUCCESS (PdoPrepare T) = false
    · simp [hp]
    · by_cases hany : ∃ x ∈ list, ChildEntry.presentWith Request.InputBuffer.SerialNo x = true
      · simp [hp, hany, NT_SUCCESS_STATUS_OBJECT_NAME_EXISTS]
      · simp [hp, hany, NT_SUCCESS_STATUS_SUCCESS, hne]

/-! ## The unplug traversal as a map over the entries -/

theorem WdfChildListUpdateChildDescriptionAsMissing_list (list : WDFCHILDLIST)
    (d : PDO_IDENTIFICATION_DESCRIPTION) :
    (WdfChildListUpdateChildDescriptionAsMissing list d).2 =
      list.map (fun e =>
        if e.presence == Presence.Present && e.description == d then e.asMissing else e) := by
  unfold WdfChildListUpdateChildDescriptionAsMissing
  split
  · rfl
  · rename_i h
    symm
    conv_rhs => rw [← List.map_id list]
    apply List.map_congr_left
    intro e he
    have : ¬ ((e.presence == Presence.Present && e.description == d) = true) := by
      intro hc
      exact h (List.any_eq_true.mpr ⟨e, he, hc⟩)
    rw [if_neg this]
    rfl

theorem unplugLoop_eq_map (unplugAll : Bool) (SerialNo : Nat) (IsInternal : Bool)
    (SessionId : Int) (rest : List RetrievedChild) (list : WDFCHILDLIST) :
    unplugLoop unplugAll SerialNo IsInternal SessionId rest list =
      list.map (fun e =>
        if e.presence == Presence.Present &&
            rest.any (fun child =>
              child.Status ==
                  WDF_CHILD_LIST_RETRIEVE_DEVICE_STATUS.WdfChildListRetrieveDeviceSuccess &&
                unplugHits unplugAll SerialNo IsInternal SessionId child.description &&
                child.description == e.description)
        then e.asMissing else e) := by
  induction rest generalizing list with
  | nil => simp [unplugLoop]
  | cons child rest ih =>
    unfold unplugLoop
    by_cases h0 : (child.Status !=
        WDF_CHILD_LIST_RETRIEVE_DEVICE_STATUS.WdfChildListRetrieveDeviceSuccess) = true
    · rw [if_pos h0, ih]
      apply List.map_congr_left
      intro e _
      have : (child.Status ==
          WDF_CHILD_LIST_RETRIEVE_DEVICE_STATUS.WdfChildListRetrieveDeviceSuccess) = false := by
        simpa using h0
      simp [this]
    · have h0t : (child.Status ==
          WDF_CHILD_LIST_RETRIEVE_DEVICE_STATUS.WdfChildListRetrieveDeviceSuccess) = true := by
        simpa using h0
      rw [if_neg h0]
      by_cases h1 : (!unplugAll && child.description.SerialNo != SerialNo) = true
      · rw [if_pos h1, ih]
        apply List.map_congr_left
        intro e _
        have : unplugHits unplugAll SerialNo IsInternal SessionId child.description = false := by
          simp only [unplugHits]
          simp at h1
          simp [h1]
        simp [this]
      · by_cases h2 : (IsInternal || child.description.SessionId == SessionId) = true
        · rw [if_neg h1, if_pos h2, ih, WdfChildListUpdateChildDescriptionAsMissing_list,
            List.map_map]
          apply List.map_congr_left
          intro e _
          have hh : unplugHits unplugAll SerialNo IsInternal SessionId child.description
              = true := by
            simp only [unplugHits]
            simp at h1
            simp at h2
            simp [h2]
            by_cases hu : unplugAll = true
            · exact Or.inl hu
            · exact Or.inr (h1 (by simpa using hu))
          simp only [Function.comp, hh, h0t, List.any_cons, Bool.true_and]
          cases hp : e.presence with
          | Missing => simp [hp, ChildEntry.asMissing]
          | Present =>
            by_cases hd : e.description = child.description
            · simp [hp, hd, ChildEntry.asMissing]
            · have hd2 : ¬ child.description = e.description := fun h => hd h.symm
              simp [hp, hd, hd2]
        · rw [if_neg h1, if_neg h2, ih]
          apply List.map_congr_left
          intro e _
          have : unplugHits unplugAll SerialNo IsInternal SessionId child.description
              = false := by
            simp only [unplugHits]
            simp at h2
            simp [h2]
          simp [this]

theorem unplugLoop_begin (unplugAll : Bool) (SerialNo : Nat) (IsInternal : Bool)
    (SessionId : Int) (list : WDFCHILDLIST) :
    unplugLoop unplugAll SerialNo IsInternal SessionId (WdfChildListBeginIteration list) list =
      list.map (unplugMark unplugAll SerialNo IsInternal SessionId) := by
  rw [unplugLoop_eq_map]
  apply List.map_congr_left
  intro e he
  unfold unplugMark
  cases hp : e.presence with
  | Missing => simp
  | Present =>
    cases hh : unplugHits unplugAll SerialNo IsInternal SessionId e.description with
    | true =>
      have : (WdfChildListBeginIteration list).any (fun child =>
          child.Status ==
              WDF_CHILD_LIST_RETRIEVE_DEVICE_STATUS.WdfChildListRetrieveDeviceSuccess &&
            unplugHits unplugAll SerialNo IsInternal SessionId child.description &&
            child.description == e.description) = true := by
        apply List.any_eq_true.mpr
        refine ⟨⟨WDF_CHILD_LIST_RETRIEVE_DEVICE_STATUS.WdfChildListRetrieveDeviceSuccess,
          e.description⟩, ?_, by simp [hh]⟩
        unfold WdfChildListBeginIteration
        apply List.mem_map.mpr
        exact ⟨e, List.mem_filter.mpr ⟨he, by simp [hp]⟩, rfl⟩
      simp [this]
    | false =>
      have : (WdfChildListBeginIteration list).any (fun child =>
          child.Status ==
              WDF_CHILD_LIST_RETRIEVE_DEVICE_STATUS.WdfChildListRetrieveDeviceSuccess &&
            unplugHits unplugAll SerialNo IsInternal SessionId child.description &&
            child.description == e.description) = false := by
        rw [Bool.eq_false_iff]
        intro hc
        obtain ⟨c, _, hc2⟩ := List.any_eq_true.mp hc
        simp at hc2
        rw [hc2.2, hh] at hc2
        simp at hc2
      simp [this]

/-- The result of `Bus_UnPlugDevice` on a request that passes the checks of
lines 254-300. -/
theorem Bus_UnPlugDevice_validated (p : Platform) (list : WDFCHILDLIST)
    (Request : WDFREQUEST VIGEM_UNPLUG_TARGET) (IsInternal : Bool) (fd : FDO_FILE_DATA)
    (hlen : Request.InputBufferLength = p.sizeofUnplug)
    (hsize : Request.InputBuffer.Size = p.sizeofUnplug)
    (hfile : Request.FileObject = some ⟨some fd⟩) :
    Bus_UnPlugDevice p list Request IsInternal =
      ⟨STATUS_SUCCESS, some p.sizeofUnplug,
        list.map (unplugMark (Request.InputBuffer.SerialNo == 0) Request.InputBuffer.SerialNo
          IsInternal fd.SessionId), none⟩ := by
  unfold Bus_UnPlugDevice WdfRequestRetrieveInputBuffer
  simp only [hlen, hsize, hfile, lt_self_iff_false, if_false, NT_SUCCESS_STATUS_SUCCESS]
  simp [unplugLoop_begin]

/-! ## The target factory -/

/-- For the two supported kinds `newTarget` yields a target with the identity
and ids described in C7. -/
theorem newTarget_supported (p : Platform) (plugIn : VIGEM_PLUGIN_TARGET) (SessionId : Int)
    (hkind : plugIn.TargetType = VIGEM_TARGET_TYPE.Xbox360Wired ∨
      plugIn.TargetType = VIGEM_TARGET_TYPE.DualShock4Wired) :
    ∃ T, newTarget p plugIn SessionId = some T ∧
      T.SerialNo = plugIn.SerialNo ∧ T.SessionId = SessionId ∧
      (plugIn.TargetType = VIGEM_TARGET_TYPE.Xbox360Wired → T.cls = TargetClass.XUSB) ∧
      (plugIn.TargetType = VIGEM_TARGET_TYPE.DualShock4Wired → T.cls = TargetClass.DS4) ∧
      (plugIn.VendorId ≠ 0 → plugIn.ProductId ≠ 0 →
        T.VendorId = plugIn.VendorId ∧ T.ProductId = plugIn.ProductId) ∧
      (plugIn.VendorId = 0 ∨ plugIn.ProductId = 0 →
        (plugIn.TargetType = VIGEM_TARGET_TYPE.Xbox360Wired →
          T.VendorId = p.xusbVendorId ∧ T.ProductId = p.xusbProductId) ∧
        (plugIn.TargetType = VIGEM_TARGET_TYPE.DualShock4Wired →
          T.VendorId = p.ds4VendorId ∧ T.ProductId = p.ds4ProductId)) := by
  unfold newTarget
  by_cases hz : (plugIn.VendorId == 0 || plugIn.ProductId == 0) = true
  · have hz2 : plugIn.VendorId = 0 ∨ plugIn.ProductId = 0 := by simpa using hz
    rw [if_pos hz]
    rcases hkind with hk | hk
    · rw [hk]
      refine ⟨_, rfl, rfl, rfl, fun _ => rfl, (fun h => by cases h), ?_, ?_⟩
      · intro hv hp
        rcases hz2 with h | h
        · exact absurd h hv
        · exact absurd h hp
      · intro _
        exact ⟨fun _ => ⟨rfl, rfl⟩, (fun h => by cases h)⟩
    · rw [hk]
      refine ⟨_, rfl, rfl, rfl, (fun h => by cases h), fun _ => rfl, ?_, ?_⟩
      · intro hv hp
        rcases hz2 with h | h
        · exact absurd h hv
        · exact absurd h hp
      · intro _
        exact ⟨(fun h => by cases h), fun _ => ⟨rfl, rfl⟩⟩
  · have hz2 : ¬ (plugIn.VendorId = 0 ∨ plugIn.ProductId = 0) := by simpa using hz
    rw [if_neg hz]
    rcases hkind with hk | hk
    · rw [hk]
      exact ⟨_, rfl, rfl, rfl, fun _ => rfl, (fun h => by cases h), fun _ _ => ⟨rfl, rfl⟩,
        fun h => absurd h hz2⟩
    · rw [hk]
      exact ⟨_, rfl, rfl, rfl, (fun h => by cases h), fun _ => rfl, fun _ _ => ⟨rfl, rfl⟩,
        fun h => absurd h hz2⟩

/-- On a validated request the child list is unchanged or has one more entry:
the present entry of the new target. -/
theorem Bus_PlugInDevice_list_cases (p : Platform) (PdoPrepare : EmulationTargetPDO → NTSTATUS)
    (list : WDFCHILDLIST) (Request : WDFREQUEST VIGEM_PLUGIN_TARGET) (IsInternal : Bool)
    (fd : FDO_FILE_DATA) (T : EmulationTargetPDO)
    (hlen : Request.InputBufferLength = p.sizeofPlugIn)
    (hsize : Request.InputBuffer.Size = p.sizeofPlugIn)
    (hserial : Request.InputBuffer.SerialNo ≠ 0)
    (hfile : Request.FileObject = some ⟨some fd⟩)
    (hT : newTarget p Request.InputBuffer fd.SessionId = some T) :
    (Bus_PlugInDevice p PdoPrepare list Request IsInternal).Target = some T ∧
    ((Bus_PlugInDevice p PdoPrepare list Request IsInternal).list = list ∨
      (list.any (ChildEntry.presentWith Request.InputBuffer.SerialNo) = false ∧
       (Bus_PlugInDevice p PdoPrepare list Request IsInternal).list =
        list ++ [⟨⟨Request.InputBuffer.SerialNo, fd.SessionId, T⟩, Presence.Present⟩])) := by
  rw [Bus_PlugInDevice_validated p PdoPrepare list Request IsInternal fd hlen hsize hserial hfile,
    hT]
  dsimp only
  split_ifs with h1 h2
  · exact ⟨rfl, Or.inl rfl⟩
  · exact ⟨rfl, Or.inl rfl⟩
  · exact ⟨rfl, Or.inr ⟨by simpa using h2, rfl⟩⟩

/-! ## Plug-in: failures of validation and construction -/

/-- C5: a plug-in request that passes validation (sizes right, serial number
not zero, session resolved) and whose kind is neither `Xbox360Wired` nor
`DualShock4Wired` fails with `STATUS_NOT_SUPPORTED` whatever its vendor and
product id are; no target is created and the child list is unchanged. -/
theorem Bus_PlugInDevice_unsupported_kind (p : Platform)
    (PdoPrepare : EmulationTargetPDO → NTSTATUS) (list : WDFCHILDLIST)
    (Request : WDFREQUEST VIGEM_PLUGIN_TARGET) (IsInternal : Bool) (fd : FDO_FILE_DATA)
    (raw : Nat)
    (hlen : Request.InputBufferLength = p.sizeofPlugIn)
    (hsize : Request.InputBuffer.Size = p.sizeofPlugIn)
    (hserial : Request.InputBuffer.SerialNo ≠ 0)
    (hfile : Request.FileObject = some ⟨some fd⟩)
    (hkind : Request.InputBuffer.TargetType = VIGEM_TARGET_TYPE.other raw) :
    (Bus_PlugInDevice p PdoPrepare list Request IsInternal).status = STATUS_NOT_SUPPORTED ∧
    (Bus_PlugInDevice p PdoPrepare list Request IsInternal).Target = none ∧
    (Bus_PlugInDevice p PdoPrepare list Request IsInternal).list = list := by
  have hT : newTarget p Request.InputBuffer fd.SessionId = none := by
    unfold newTarget
    rw [hkind]
    split <;> rfl
  rw [Bus_PlugInDevice_validated p PdoPrepare list Request IsInternal fd hlen hsize hserial hfile,
    hT]
  exact ⟨rfl, rfl, rfl⟩

/-- Witness for C5: kind 1 with non-zero ids, on a list with one entry. -/
theorem Bus_PlugInDevice_unsupported_kind_witness :
    (Bus_PlugInDevice samplePlatform (fun _ => STATUS_SUCCESS) [sampleEntry 7 1]
        (samplePlugIn 9 2 (VIGEM_TARGET_TYPE.other 1) 0x1234 0x5678) false).status
      = STATUS_NOT_SUPPORTED ∧
    (Bus_PlugInDevice samplePlatform (fun _ => STATUS_SUCCESS) [sampleEntry 7 1]
        (samplePlugIn 9 2 (VIGEM_TARGET_TYPE.other 1) 0x1234 0x5678) false).Target = none ∧
    (Bus_PlugInDevice samplePlatform (fun _ => STATUS_SUCCESS) [sampleEntry 7 1]
        (samplePlugIn 9 2 (VIGEM_TARGET_TYPE.other 1) 0x1234 0x5678) false).list
      = [sampleEntry 7 1] :=
  Bus_PlugInDevice_unsupported_kind samplePlatform (fun _ => STATUS_SUCCESS) [sampleEntry 7 1]
    (samplePlugIn 9 2 (VIGEM_TARGET_TYPE.other 1) 0x1234 0x5678) false ⟨2⟩ 1
    rfl rfl (by decide) rfl rfl

/-- C6, as stated, fails: a plug-in request with serial number 0 whose input
buffer is 8 bytes long is answered with `STATUS_BUFFER_TOO_SMALL`, the status of
`WdfRequestRetrieveInputBuffer`, not with `STATUS_INVALID_PARAMETER`. -/
theorem short_buffer_status_sample :
    (Bus_PlugInDevice samplePlatform (fun _ => STATUS_SUCCESS) []
        ⟨⟨8, 0, VIGEM_TARGET_TYPE.Xbox360Wired, 0, 0⟩, 8, some ⟨some ⟨1⟩⟩⟩ false).status
      = STATUS_BUFFER_TOO_SMALL ∧
    (Bus_PlugInDevice samplePlatform (fun _ => STATUS_SUCCESS) []
        ⟨⟨8, 0, VIGEM_TARGET_TYPE.Xbox360Wired, 0, 0⟩, 8, some ⟨some ⟨1⟩⟩⟩ false).status
      ≠ STATUS_INVALID_PARAMETER := by
  decide

/-- C6, amended: a plug-in request with serial number 0 fails and leaves the
child list unchanged, whatever its other fields and its session context are;
the status is `STATUS_INVALID_PARAMETER` when the input buffer is at least as
long as the record, and `STATUS_BUFFER_TOO_SMALL` when it is shorter. -/
theorem Bus_PlugInDevice_zero_serial (p : Platform)
    (PdoPrepare : EmulationTargetPDO → NTSTATUS) (list : WDFCHILDLIST)
    (Request : WDFREQUEST VIGEM_PLUGIN_TARGET) (IsInternal : Bool)
    (hserial : Request.InputBuffer.SerialNo = 0) :
    NT_SUCCESS (Bus_PlugInDevice p PdoPrepare list Request IsInternal).status = false ∧
    (Bus_PlugInDevice p PdoPrepare list Request IsInternal).list = list ∧
    (Bus_PlugInDevice p PdoPrepare list Request IsInternal).Target = none ∧
    (p.sizeofPlugIn ≤ Request.InputBufferLength →
      (Bus_PlugInDevice p PdoPrepare list Request IsInternal).status
        = STATUS_INVALID_PARAMETER) ∧
    (Request.InputBufferLength < p.sizeofPlugIn →
      (Bus_PlugInDevice p PdoPrepare list Request IsInternal).status
        = STATUS_BUFFER_TOO_SMALL) := by
  unfold Bus_PlugInDevice WdfRequestRetrieveInputBuffer
  by_cases hshort : Request.InputBufferLength < p.sizeofPlugIn
  · simp [hshort, NT_SUCCESS_STATUS_BUFFER_TOO_SMALL, Nat.not_le.mpr hshort]
  · simp only [hshort, if_false, NT_SUCCESS_STATUS_SUCCESS]
    by_cases hs : (p.sizeofPlugIn != Request.InputBuffer.Size ||
        Request.InputBufferLength != Request.InputBuffer.Size) = true
    · simp [hs, NT_SUCCESS_STATUS_INVALID_PARAMETER]
    · simp [hs, hserial, NT_SUCCESS_STATUS_INVALID_PARAMETER]

/-- Witness for C6: a record of the right size with serial number 0. -/
theorem Bus_PlugInDevice_zero_serial_witness :
    NT_SUCCESS (Bus_PlugInDevice samplePlatform (fun _ => STATUS_SUCCESS) [sampleEntry 7 1]
      (samplePlugIn 0 1 VIGEM_TARGET_TYPE.Xbox360Wired 0 0) false).status = false ∧
    (Bus_PlugInDevice samplePlatform (fun _ => STATUS_SUCCESS) [sampleEntry 7 1]
      (samplePlugIn 0 1 VIGEM_TARGET_TYPE.Xbox360Wired 0 0) false).status
        = STATUS_INVALID_PARAMETER :=
  have h := Bus_PlugInDevice_zero_serial samplePlatform (fun _ => STATUS_SUCCESS)
    [sampleEntry 7 1] (samplePlugIn 0 1 VIGEM_TARGET_TYPE.Xbox360Wired 0 0) false rfl
  ⟨h.1, h.2.2.2.1 (by decide)⟩

/-- C7: on a valid plug-in request of a supported kind the target that
`Bus_PlugInDevice` constructs carries the serial number of the request and the
session id of the caller; it carries the supplied vendor and product id when
both are non-zero and the default pair of its kind when either is zero.  If
the call adds an entry to the child list, it is the entry of that target. -/
theorem Bus_PlugInDevice_target_identity (p : Platform)
    (PdoPrepare : EmulationTargetPDO → NTSTATUS) (list : WDFCHILDLIST)
    (Request : WDFREQUEST VIGEM_PLUGIN_TARGET) (IsInternal : Bool) (fd : FDO_FILE_DATA)
    (hlen : Request.InputBufferLength = p.sizeofPlugIn)
    (hsize : Request.InputBuffer.Size = p.sizeofPlugIn)
    (hserial : Request.InputBuffer.SerialNo ≠ 0)
    (hfile : Request.FileObject = some ⟨some fd⟩)
    (hkind : Request.InputBuffer.TargetType = VIGEM_TARGET_TYPE.Xbox360Wired ∨
      Request.InputBuffer.TargetType = VIGEM_TARGET_TYPE.DualShock4Wired) :
    ∃ T, (Bus_PlugInDevice p PdoPrepare list Request IsInternal).Target = some T ∧
      T.SerialNo = Request.InputBuffer.SerialNo ∧ T.SessionId = fd.SessionId ∧
      (Request.InputBuffer.TargetType = VIGEM_TARGET_TYPE.Xbox360Wired →
        T.cls = TargetClass.XUSB) ∧
      (Request.InputBuffer.TargetType = VIGEM_TARGET_TYPE.DualShock4Wired →
        T.cls = TargetClass.DS4) ∧
      (Request.InputBuffer.VendorId ≠ 0 → Request.InputBuffer.ProductId ≠ 0 →
        T.VendorId = Request.InputBuffer.VendorId ∧
        T.ProductId = Request.InputBuffer.ProductId) ∧
      (Request.InputBuffer.VendorId = 0 ∨ Request.InputBuffer.ProductId = 0 →
        (Request.InputBuffer.TargetType = VIGEM_TARGET_TYPE.Xbox360Wired →
          T.VendorId = p.xusbVendorId ∧ T.ProductId = p.xusbProductId) ∧
        (Request.InputBuffer.TargetType = VIGEM_TARGET_TYPE.DualShock4Wired →
          T.VendorId = p.ds4VendorId ∧ T.ProductId = p.ds4ProductId)) ∧
      ((Bus_PlugInDevice p PdoPrepare list Request IsInternal).list = list ∨
        (Bus_PlugInDevice p PdoPrepare list Request IsInternal).list =
          list ++ [⟨⟨Request.InputBuffer.SerialNo, fd.SessionId, T⟩, Presence.Present⟩]) := by
  obtain ⟨T, hT, h1, h2, h3, h4, h5, h6⟩ :=
    newTarget_supported p Request.InputBuffer fd.SessionId hkind
  have hl := Bus_PlugInDevice_list_cases p PdoPrepare list Request IsInternal fd T
    hlen hsize hserial hfile hT
  refine ⟨T, hl.1, h1, h2, h3, h4, h5, h6, ?_⟩
  rcases hl.2 with h | h
  · exact Or.inl h
  · exact Or.inr h.2

/-- Witness for C7: vendor id 0 with a non-zero product id gives the default
pair of the kind, and the entry added is the entry of that target. -/
theorem Bus_PlugInDevice_target_identity_witness :
    ∃ T, (Bus_PlugInDevice samplePlatform (fun _ => STATUS_SUCCESS) []
        (samplePlugIn 7 1 VIGEM_TARGET_TYPE.DualShock4Wired 0 0x5678) false).Target = some T ∧
      T.SerialNo = 7 ∧ T.SessionId = 1 ∧ T.VendorId = 0x054C ∧ T.ProductId = 0x05C4 :=
  have h := Bus_PlugInDevice_target_identity samplePlatform (fun _ => STATUS_SUCCESS) []
    (samplePlugIn 7 1 VIGEM_TARGET_TYPE.DualShock4Wired 0 0x5678) false ⟨1⟩
    rfl rfl (by decide) rfl (Or.inr rfl)
  match h with
  | ⟨T, hT, h1, h2, _, _, _, h6, _⟩ =>
    ⟨T, hT, h1, h2, ((h6 (Or.inl rfl)).2 rfl).1, ((h6 (Or.inl rfl)).2 rfl).2⟩

/-- C2, the code at a failing input: a valid request for an Xbox 360 target
whose `PdoPrepare` answers `STATUS_INSUFFICIENT_RESOURCES`, a failing status.
`Bus_PlugInDevice` returns `STATUS_SUCCESS`, the status still held from
`WdfRequestRetrieveInputBuffer`; the child list is untouched. -/
theorem Bus_PlugInDevice_prepare_failure_sample :
    NT_SUCCESS STATUS_INSUFFICIENT_RESOURCES = false ∧
    (Bus_PlugInDevice samplePlatform (fun _ => STATUS_INSUFFICIENT_RESOURCES) []
        (samplePlugIn 7 1 VIGEM_TARGET_TYPE.Xbox360Wired 0 0) false).status = STATUS_SUCCESS ∧
    NT_SUCCESS (Bus_PlugInDevice samplePlatform (fun _ => STATUS_INSUFFICIENT_RESOURCES) []
        (samplePlugIn 7 1 VIGEM_TARGET_TYPE.Xbox360Wired 0 0) false).status = true ∧
    (Bus_PlugInDevice samplePlatform (fun _ => STATUS_INSUFFICIENT_RESOURCES) []
        (samplePlugIn 7 1 VIGEM_TARGET_TYPE.Xbox360Wired 0 0) false).list = [] := by
  decide

/-- The same for every valid request of a supported kind: when `PdoPrepare`
fails the call returns `STATUS_SUCCESS` and the child list is untouched. -/
theorem prepare_failure_returns_success (p : Platform)
    (PdoPrepare : EmulationTargetPDO → NTSTATUS) (list : WDFCHILDLIST)
    (Request : WDFREQUEST VIGEM_PLUGIN_TARGET) (IsInternal : Bool) (fd : FDO_FILE_DATA)
    (T : EmulationTargetPDO)
    (hlen : Request.InputBufferLength = p.sizeofPlugIn)
    (hsize : Request.InputBuffer.Size = p.sizeofPlugIn)
    (hserial : Request.InputBuffer.SerialNo ≠ 0)
    (hfile : Request.FileObject = some ⟨some fd⟩)
    (hT : newTarget p Request.InputBuffer fd.SessionId = some T)
    (hprep : NT_SUCCESS (PdoPrepare T) = false) :
    (Bus_PlugInDevice p PdoPrepare list Request IsInternal).status = STATUS_SUCCESS ∧
    (Bus_PlugInDevice p PdoPrepare list Request IsInternal).list = list := by
  rw [Bus_PlugInDevice_validated p PdoPrepare list Request IsInternal fd hlen hsize hserial hfile,
    hT]
  dsimp only
  rw [if_pos hprep]
  exact ⟨rfl, rfl⟩

/-! ## Plug-in: a serial number that is in use -/

/-- C1, as stated, fails: a second plug-in with the serial number 7 of a
present entry is answered with `STATUS_INVALID_PARAMETER`, the very status of
a plug-in with serial number 0, not with a status of its own;
`STATUS_OBJECT_NAME_EXISTS` of the framework is not passed on. -/
theorem duplicate_serial_status_sample :
    (Bus_PlugInDevice samplePlatform (fun _ => STATUS_SUCCESS) [sampleEntry 7 1]
        (samplePlugIn 7 2 VIGEM_TARGET_TYPE.DualShock4Wired 0 0) false).status
      = STATUS_INVALID_PARAMETER ∧
    (Bus_PlugInDevice samplePlatform (fun _ => STATUS_SUCCESS) [sampleEntry 7 1]
        (samplePlugIn 7 2 VIGEM_TARGET_TYPE.DualShock4Wired 0 0) false).status
      ≠ STATUS_OBJECT_NAME_EXISTS ∧
    (Bus_PlugInDevice samplePlatform (fun _ => STATUS_SUCCESS) [sampleEntry 7 1]
        (samplePlugIn 7 2 VIGEM_TARGET_TYPE.DualShock4Wired 0 0) false).status
      = (Bus_PlugInDevice samplePlatform (fun _ => STATUS_SUCCESS) [sampleEntry 7 1]
        (samplePlugIn 0 2 VIGEM_TARGET_TYPE.DualShock4Wired 0 0) false).status := by
  decide

/-- C1, amended: when the child list holds a present entry with the serial
number of a plug-in request that passes validation, names a supported kind and
whose `PdoPrepare` succeeds, `Bus_PlugInDevice` fails with
`STATUS_INVALID_PARAMETER` and leaves the child list unchanged. -/
theorem Bus_PlugInDevice_duplicate (p : Platform)
    (PdoPrepare : EmulationTargetPDO → NTSTATUS) (list : WDFCHILDLIST)
    (Request : WDFREQUEST VIGEM_PLUGIN_TARGET) (IsInternal : Bool) (fd : FDO_FILE_DATA)
    (e : ChildEntry)
    (hlen : Request.InputBufferLength = p.sizeofPlugIn)
    (hsize : Request.InputBuffer.Size = p.sizeofPlugIn)
    (hserial : Request.InputBuffer.SerialNo ≠ 0)
    (hfile : Request.FileObject = some ⟨some fd⟩)
    (hkind : Request.InputBuffer.TargetType = VIGEM_TARGET_TYPE.Xbox360Wired ∨
      Request.InputBuffer.TargetType = VIGEM_TARGET_TYPE.DualShock4Wired)
    (hprep : ∀ T, newTarget p Request.InputBuffer fd.SessionId = some T →
      NT_SUCCESS (PdoPrepare T) = true)
    (he : e ∈ list) (hpresent : e.presence = Presence.Present)
    (hsame : e.description.SerialNo = Request.InputBuffer.SerialNo) :
    (Bus_PlugInDevice p PdoPrepare list Request IsInternal).status = STATUS_INVALID_PARAMETER ∧
    NT_SUCCESS (Bus_PlugInDevice p PdoPrepare list Request IsInternal).status = false ∧
    (Bus_PlugInDevice p PdoPrepare list Request IsInternal).list = list := by
  obtain ⟨T, hT, _⟩ := newTarget_supported p Request.InputBuffer fd.SessionId hkind
  have hany : list.any (ChildEntry.presentWith Request.InputBuffer.SerialNo) = true :=
    List.any_eq_true.mpr ⟨e, he, by simp [ChildEntry.presentWith, hpresent, hsame]⟩
  have hp : ¬ NT_SUCCESS (PdoPrepare T) = false := by
    rw [hprep T hT]
    decide
  rw [Bus_PlugInDevice_validated p PdoPrepare list Request IsInternal fd hlen hsize hserial hfile,
    hT]
  dsimp only
  rw [if_neg hp, if_pos hany]
  exact ⟨rfl, NT_SUCCESS_STATUS_INVALID_PARAMETER, rfl⟩

/-- Witness for C1: the entry of serial number 7 stays as it is. -/
theorem Bus_PlugInDevice_duplicate_witness :
    (Bus_PlugInDevice samplePlatform (fun _ => STATUS_SUCCESS) [sampleEntry 7 1]
        (samplePlugIn 7 2 VIGEM_TARGET_TYPE.DualShock4Wired 0 0) false).status
      = STATUS_INVALID_PARAMETER ∧
    (Bus_PlugInDevice samplePlatform (fun _ => STATUS_SUCCESS) [sampleEntry 7 1]
        (samplePlugIn 7 2 VIGEM_TARGET_TYPE.DualShock4Wired 0 0) false).list
      = [sampleEntry 7 1] :=
  have h := Bus_PlugInDevice_duplicate samplePlatform (fun _ => STATUS_SUCCESS)
    [sampleEntry 7 1] (samplePlugIn 7 2 VIGEM_TARGET_TYPE.DualShock4Wired 0 0) false ⟨2⟩
    (sampleEntry 7 1) rfl rfl (by decide) rfl (Or.inr rfl) (fun _ _ => NT_SUCCESS_STATUS_SUCCESS)
    (List.mem_singleton.mpr rfl) rfl rfl
  ⟨h.1, h.2.2⟩

/-! ## Unplug: validation -/

/-- C10: a correctly sized unplug request whose session context cannot be
resolved (no file object, or no file data for it) fails with
`STATUS_INVALID_PARAMETER` and changes no entry, for every serial number
(0 included) and also for an internal caller. -/
theorem Bus_UnPlugDevice_no_session (p : Platform) (list : WDFCHILDLIST)
    (Request : WDFREQUEST VIGEM_UNPLUG_TARGET) (IsInternal : Bool)
    (hlen : Request.InputBufferLength = p.sizeofUnplug)
    (hsize : Request.InputBuffer.Size = p.sizeofUnplug)
    (hfile : Request.FileObject = none ∨ Request.FileObject = some ⟨none⟩) :
    (Bus_UnPlugDevice p list Request IsInternal).status = STATUS_INVALID_PARAMETER ∧
    (Bus_UnPlugDevice p list Request IsInternal).list = list := by
  unfold Bus_UnPlugDevice WdfRequestRetrieveInputBuffer
  simp only [hlen, hsize, lt_self_iff_false, if_false, NT_SUCCESS_STATUS_SUCCESS]
  rcases hfile with h | h <;> simp [h]

/-- Witness for C10: an internal caller, the wildcard serial number, no file
object; the present entry stays present. -/
theorem Bus_UnPlugDevice_no_session_witness :
    (Bus_UnPlugDevice samplePlatform [sampleEntry 7 1] ⟨⟨8, 0⟩, 8, none⟩ true).status
      = STATUS_INVALID_PARAMETER ∧
    (Bus_UnPlugDevice samplePlatform [sampleEntry 7 1] ⟨⟨8, 0⟩, 8, none⟩ true).list
      = [sampleEntry 7 1] :=
  Bus_UnPlugDevice_no_session samplePlatform [sampleEntry 7 1] ⟨⟨8, 0⟩, 8, none⟩ true
    rfl rfl (Or.inl rfl)

/-! ## Unplug: what the traversal does to each entry -/

theorem unplugMark_description (unplugAll : Bool) (SerialNo : Nat) (IsInternal : Bool)
    (SessionId : Int) (e : ChildEntry) :
    (unplugMark unplugAll SerialNo IsInternal SessionId e).description = e.description := by
  unfold unplugMark
  split <;> rfl

theorem unplugMark_of_missing (unplugAll : Bool) (SerialNo : Nat) (IsInternal : Bool)
    (SessionId : Int) (e : ChildEntry) (h : e.presence = Presence.Missing) :
    unplugMark unplugAll SerialNo IsInternal SessionId e = e := by
  unfold unplugMark
  simp [h]

theorem unplugMark_of_hit (unplugAll : Bool) (SerialNo : Nat) (IsInternal : Bool)
    (SessionId : Int) (e : ChildEntry) (h : e.presence = Presence.Present)
    (hh : unplugHits unplugAll SerialNo IsInternal SessionId e.description = true) :
    unplugMark unplugAll SerialNo IsInternal SessionId e = e.asMissing := by
  unfold unplugMark
  simp [h, hh]

theorem unplugMark_of_not_hit (unplugAll : Bool) (SerialNo : Nat) (IsInternal : Bool)
    (SessionId : Int) (e : ChildEntry)
    (hh : unplugHits unplugAll SerialNo IsInternal SessionId e.description = false) :
    unplugMark unplugAll SerialNo IsInternal SessionId e = e := by
  unfold unplugMark
  simp [hh]

theorem unplugMark_idem (unplugAll : Bool) (SerialNo : Nat) (IsInternal : Bool)
    (SessionId : Int) (e : ChildEntry) :
    unplugMark unplugAll SerialNo IsInternal SessionId
        (unplugMark unplugAll SerialNo IsInternal SessionId e) =
      unplugMark unplugAll SerialNo IsInternal SessionId e := by
  by_cases h : (e.presence == Presence.Present &&
      unplugHits unplugAll SerialNo IsInternal SessionId e.description) = true
  · have h1 : unplugMark unplugAll SerialNo IsInternal SessionId e = e.asMissing := by
      unfold unplugMark
      rw [if_pos h]
    rw [h1]
    exact unplugMark_of_missing _ _ _ _ _ rfl
  · have h1 : unplugMark unplugAll SerialNo IsInternal SessionId e = e := by
      unfold unplugMark
      rw [if_neg h]
    rw [h1, h1]

/-- Either `Bus_UnPlugDevice` leaves every child list as it is, or the request
passed validation and the list is the traversal applied to every entry. -/
theorem Bus_UnPlugDevice_list_cases (p : Platform)
    (Request : WDFREQUEST VIGEM_UNPLUG_TARGET) (IsInternal : Bool) :
    (∀ list : WDFCHILDLIST, (Bus_UnPlugDevice p list Request IsInternal).list = list) ∨
    ∃ fd : FDO_FILE_DATA, ∀ list : WDFCHILDLIST,
      (Bus_UnPlugDevice p list Request IsInternal).list =
        list.map (unplugMark (Request.InputBuffer.SerialNo == 0) Request.InputBuffer.SerialNo
          IsInternal fd.SessionId) := by
  unfold Bus_UnPlugDevice WdfRequestRetrieveInputBuffer
  by_cases hshort : Request.InputBufferLength < p.sizeofUnplug
  · left
    intro list
    simp [hshort, NT_SUCCESS_STATUS_BUFFER_TOO_SMALL]
  · simp only [hshort, if_false, NT_SUCCESS_STATUS_SUCCESS]
    by_cases hs : (p.sizeofUnplug != Request.InputBuffer.Size ||
        Request.InputBufferLength != Request.InputBuffer.Size) = true
    · left
      intro list
      simp [hs]
    · cases hf : Request.FileObject with
      | none =>
        left
        intro list
        simp [hs]
      | some fo =>
        cases hd : fo.FileData with
        | none =>
          left
          intro list
          simp [hs, hd]
        | some fd =>
          right
          refine ⟨fd, ?_⟩
          intro list
          simp [hs, hd, unplugLoop_begin]

/-- Applying the same unplug a second time changes nothing more. -/
theorem Bus_UnPlugDevice_idempotent (p : Platform) (list : WDFCHILDLIST)
    (Request : WDFREQUEST VIGEM_UNPLUG_TARGET) (IsInternal : Bool) :
    (Bus_UnPlugDevice p (Bus_UnPlugDevice p list Request IsInternal).list Request
        IsInternal).list =
      (Bus_UnPlugDevice p list Request IsInternal).list := by
  rcases Bus_UnPlugDevice_list_cases p Request IsInternal with h | ⟨fd, h⟩
  · rw [h]
  · rw [h, h, List.map_map]
    apply List.map_congr_left
    intro e _
    exact unplugMark_idem _ _ _ _ e

/-! ## Unplug: the wildcard and the single serial number -/

/-- C3: a correctly sized unplug request with serial number 0 from a caller of
session `fd.SessionId` succeeds and keeps every entry in its place with its
description.  A missing entry stays missing.  For a caller that is not
internal a present entry becomes missing exactly when its session id is the
caller's (every other present entry stays present); for an internal caller
every present entry becomes missing. -/
theorem Bus_UnPlugDevice_wildcard (p : Platform) (list : WDFCHILDLIST)
    (Request : WDFREQUEST VIGEM_UNPLUG_TARGET) (IsInternal : Bool) (fd : FDO_FILE_DATA)
    (hlen : Request.InputBufferLength = p.sizeofUnplug)
    (hsize : Request.InputBuffer.Size = p.sizeofUnplug)
    (hserial : Request.InputBuffer.SerialNo = 0)
    (hfile : Request.FileObject = some ⟨some fd⟩) :
    (Bus_UnPlugDevice p list Request IsInternal).status = STATUS_SUCCESS ∧
    (Bus_UnPlugDevice p list Request IsInternal).list.length = list.length ∧
    ∀ (i : Nat) (e : ChildEntry), list[i]? = some e →
      ∃ e2, (Bus_UnPlugDevice p list Request IsInternal).list[i]? = some e2 ∧
        e2.description = e.description ∧
        (e.presence = Presence.Missing → e2.presence = Presence.Missing) ∧
        (e.presence = Presence.Present → IsInternal = false →
          (e2.presence = Presence.Missing ↔ e.description.SessionId = fd.SessionId) ∧
          (e2.presence = Presence.Present ↔ e.description.SessionId ≠ fd.SessionId)) ∧
        (e.presence = Presence.Present → IsInternal = true →
          e2.presence = Presence.Missing) := by
  rw [Bus_UnPlugDevice_validated p list Request IsInternal fd hlen hsize hfile]
  refine ⟨rfl, by simp, ?_⟩
  intro i e hi
  refine ⟨unplugMark (Request.InputBuffer.SerialNo == 0) Request.InputBuffer.SerialNo
    IsInternal fd.SessionId e, by simp [hi], unplugMark_description _ _ _ _ e, ?_, ?_, ?_⟩
  · intro hm
    rw [unplugMark_of_missing _ _ _ _ e hm]
    exact hm
  · intro hp hint
    by_cases hc : e.description.SessionId = fd.SessionId
    · have hh : unplugHits (Request.InputBuffer.SerialNo == 0) Request.InputBuffer.SerialNo
          IsInternal fd.SessionId e.description = true := by
        simp [unplugHits, hserial, hc]
      rw [unplugMark_of_hit _ _ _ _ e hp hh]
      simp [ChildEntry.asMissing, hc]
    · have hh : unplugHits (Request.InputBuffer.SerialNo == 0) Request.InputBuffer.SerialNo
          IsInternal fd.SessionId e.description = false := by
        simp [unplugHits, hserial, hc, hint]
      rw [unplugMark_of_not_hit _ _ _ _ e hh]
      simp [hp, hc]
  · intro hp hint
    have hh : unplugHits (Request.InputBuffer.SerialNo == 0) Request.InputBuffer.SerialNo
        IsInternal fd.SessionId e.description = true := by
      simp [unplugHits, hserial, hint]
    rw [unplugMark_of_hit _ _ _ _ e hp hh]
    rfl

/-- C4: a correctly sized unplug request with a serial number other than 0
from a caller of session `fd.SessionId` succeeds.  If the caller is not
internal and every present entry with that serial number belongs to another
session, no entry changes.  A present entry with that serial number whose
session id is the caller's, or any such present entry when the caller is
internal, becomes missing.  Every entry with another serial number is
unchanged. -/
theorem Bus_UnPlugDevice_serial (p : Platform) (list : WDFCHILDLIST)
    (Request : WDFREQUEST VIGEM_UNPLUG_TARGET) (IsInternal : Bool) (fd : FDO_FILE_DATA)
    (hlen : Request.InputBufferLength = p.sizeofUnplug)
    (hsize : Request.InputBuffer.Size = p.sizeofUnplug)
    (hserial : Request.InputBuffer.SerialNo ≠ 0)
    (hfile : Request.FileObject = some ⟨some fd⟩) :
    (Bus_UnPlugDevice p list Request IsInternal).status = STATUS_SUCCESS ∧
    (IsInternal = false →
      (∀ e ∈ list, e.presence = Presence.Present →
        e.description.SerialNo = Request.InputBuffer.SerialNo →
        e.description.SessionId ≠ fd.SessionId) →
      (Bus_UnPlugDevice p list Request IsInternal).list = list) ∧
    (∀ (i : Nat) (e : ChildEntry), list[i]? = some e → e.presence = Presence.Present →
      e.description.SerialNo = Request.InputBuffer.SerialNo →
      (IsInternal = true ∨ e.description.SessionId = fd.SessionId) →
      (Bus_UnPlugDevice p list Request IsInternal).list[i]? = some e.asMissing) ∧
    (∀ (j : Nat) (e : ChildEntry), list[j]? = some e →
      e.description.SerialNo ≠ Request.InputBuffer.SerialNo →
      (Bus_UnPlugDevice p list Request IsInternal).list[j]? = some e) := by
  rw [Bus_UnPlugDevice_validated p list Request IsInternal fd hlen hsize hfile]
  refine ⟨rfl, ?_, ?_, ?_⟩
  · intro hint hall
    dsimp only
    conv_rhs => rw [← List.map_id list]
    apply List.map_congr_left
    intro e he
    cases hp : e.presence with
    | Missing => exact unplugMark_of_missing _ _ _ _ e hp
    | Present =>
      apply unplugMark_of_not_hit
      by_cases hs : e.description.SerialNo = Request.InputBuffer.SerialNo
      · simp [unplugHits, hserial, hint, hall e he hp hs]
      · simp [unplugHits, hserial, hs]
  · intro i e hi hp hs hown
    have hh : unplugHits (Request.InputBuffer.SerialNo == 0) Request.InputBuffer.SerialNo
        IsInternal fd.SessionId e.description = true := by
      rcases hown with h | h
      · simp [unplugHits, hs, h]
      · simp [unplugHits, hs, h]
    simp [hi, unplugMark_of_hit _ _ _ _ e hp hh]
  · intro j e hj hs
    have hh : unplugHits (Request.InputBuffer.SerialNo == 0) Request.InputBuffer.SerialNo
        IsInternal fd.SessionId e.description = false := by
      simp [unplugHits, hserial, hs]
    simp [hj, unplugMark_of_not_hit _ _ _ _ e hh]

/-- C8: a correctly sized unplug request whose serial number is not 0 and is
the serial number of no present entry succeeds, reports the size of the
request as the bytes consumed and leaves the child list unchanged; applying it
a second time gives the same list again. -/
theorem Bus_UnPlugDevice_no_present_match (p : Platform) (list : WDFCHILDLIST)
    (Request : WDFREQUEST VIGEM_UNPLUG_TARGET) (IsInternal : Bool) (fd : FDO_FILE_DATA)
    (hlen : Request.InputBufferLength = p.sizeofUnplug)
    (hsize : Request.InputBuffer.Size = p.sizeofUnplug)
    (hserial : Request.InputBuffer.SerialNo ≠ 0)
    (hfile : Request.FileObject = some ⟨some fd⟩)
    (hnone : ∀ e ∈ list, e.presence = Presence.Present →
      e.description.SerialNo ≠ Request.InputBuffer.SerialNo) :
    (Bus_UnPlugDevice p list Request IsInternal).status = STATUS_SUCCESS ∧
    (Bus_UnPlugDevice p list Request IsInternal).Transferred = some Request.InputBuffer.Size ∧
    (Bus_UnPlugDevice p list Request IsInternal).list = list ∧
    (Bus_UnPlugDevice p (Bus_UnPlugDevice p list Request IsInternal).list Request
      IsInternal).list = (Bus_UnPlugDevice p list Request IsInternal).list := by
  have hlist : (Bus_UnPlugDevice p list Request IsInternal).list = list := by
    rw [Bus_UnPlugDevice_validated p list Request IsInternal fd hlen hsize hfile]
    dsimp only
    conv_rhs => rw [← List.map_id list]
    apply List.map_congr_left
    intro e he
    cases hp : e.presence with
    | Missing => exact unplugMark_of_missing _ _ _ _ e hp
    | Present =>
      apply unplugMark_of_not_hit
      simp [unplugHits, hserial, hnone e he hp]
  refine ⟨?_, ?_, hlist, ?_⟩
  · rw [Bus_UnPlugDevice_validated p list Request IsInternal fd hlen hsize hfile]
  · rw [Bus_UnPlugDevice_validated p list Request IsInternal fd hlen hsize hfile, hsize]
  · rw [hlist, hlist]

/-- Witness for C3: session 1 unplugs all it owns; the entry of session 2 stays. -/
theorem Bus_UnPlugDevice_wildcard_witness :
    (Bus_UnPlugDevice samplePlatform [sampleEntry 7 1, sampleEntry 8 2]
        (sampleUnplug 0 1) false).status = STATUS_SUCCESS ∧
    (Bus_UnPlugDevice samplePlatform [sampleEntry 7 1, sampleEntry 8 2]
        (sampleUnplug 0 1) false).list.length = 2 :=
  have h := Bus_UnPlugDevice_wildcard samplePlatform [sampleEntry 7 1, sampleEntry 8 2]
    (sampleUnplug 0 1) false ⟨1⟩ rfl rfl rfl rfl
  ⟨h.1, h.2.1⟩

/-- Witness for C4: session 1 unplugs its entry of serial number 7. -/
theorem Bus_UnPlugDevice_serial_witness :
    (Bus_UnPlugDevice samplePlatform [sampleEntry 7 1, sampleEntry 8 2]
        (sampleUnplug 7 1) false).status = STATUS_SUCCESS ∧
    (Bus_UnPlugDevice samplePlatform [sampleEntry 7 1, sampleEntry 8 2]
        (sampleUnplug 7 1) false).list[0]? = some (sampleEntry 7 1).asMissing ∧
    (Bus_UnPlugDevice samplePlatform [sampleEntry 7 1, sampleEntry 8 2]
        (sampleUnplug 7 1) false).list[1]? = some (sampleEntry 8 2) :=
  have h := Bus_UnPlugDevice_serial samplePlatform [sampleEntry 7 1, sampleEntry 8 2]
    (sampleUnplug 7 1) false ⟨1⟩ rfl rfl (by decide) rfl
  ⟨h.1, h.2.2.1 0 (sampleEntry 7 1) rfl rfl rfl (Or.inr rfl),
    h.2.2.2 1 (sampleEntry 8 2) rfl (by decide)⟩

/-- Witness for C8: serial number 9 is in no entry, serial number 7 only in a
missing one. -/
theorem Bus_UnPlugDevice_no_present_match_witness :
    (Bus_UnPlugDevice samplePlatform [(sampleEntry 7 1).asMissing, sampleEntry 8 2]
        (sampleUnplug 7 1) true).status = STATUS_SUCCESS ∧
    (Bus_UnPlugDevice samplePlatform [(sampleEntry 7 1).asMissing, sampleEntry 8 2]
        (sampleUnplug 7 1) true).Transferred = some 8 ∧
    (Bus_UnPlugDevice samplePlatform [(sampleEntry 7 1).asMissing, sampleEntry 8 2]
        (sampleUnplug 7 1) true).list = [(sampleEntry 7 1).asMissing, sampleEntry 8 2] :=
  have h := Bus_UnPlugDevice_no_present_match samplePlatform
    [(sampleEntry 7 1).asMissing, sampleEntry 8 2] (sampleUnplug 7 1) true ⟨1⟩
    rfl rfl (by decide) rfl (by decide)
  ⟨h.1, h.2.1, h.2.2.1⟩

/-! ## The invariant of the child list -/

theorem presentWith_unplugMark (unplugAll : Bool) (SerialNo : Nat) (IsInternal : Bool)
    (SessionId : Int) (s : Nat) (e : ChildEntry)
    (h : ChildEntry.presentWith s (unplugMark unplugAll SerialNo IsInternal SessionId e) = true) :
    ChildEntry.presentWith s e = true := by
  unfold unplugMark at h
  split at h
  · simp [ChildEntry.presentWith, ChildEntry.asMissing] at h
  · exact h

/-- The traversal of an unplug keeps the invariant. -/
theorem invariant_map_unplugMark (unplugAll : Bool) (SerialNo : Nat) (IsInternal : Bool)
    (SessionId : Int) (list : WDFCHILDLIST)
    (h1 : ∀ s, (list.filter (ChildEntry.presentWith s)).length ≤ 1)
    (h2 : ∀ e ∈ list, e.presence = Presence.Present → e.description.SerialNo ≠ 0) :
    (∀ s, ((list.map (unplugMark unplugAll SerialNo IsInternal SessionId)).filter
      (ChildEntry.presentWith s)).length ≤ 1) ∧
    (∀ e ∈ list.map (unplugMark unplugAll SerialNo IsInternal SessionId),
      e.presence = Presence.Present → e.description.SerialNo ≠ 0) := by
  constructor
  · intro s
    have hle : List.countP (ChildEntry.presentWith s)
        (list.map (unplugMark unplugAll SerialNo IsInternal SessionId)) ≤
        List.countP (ChildEntry.presentWith s) list := by
      rw [List.countP_map]
      apply List.countP_mono_left
      intro e _ he
      exact presentWith_unplugMark _ _ _ _ s e he
    have h := h1 s
    rw [← List.countP_eq_length_filter] at h ⊢
    exact le_trans hle h
  · intro e he hp
    obtain ⟨e0, he0, rfl⟩ := List.mem_map.mp he
    rw [unplugMark_description]
    apply h2 e0 he0
    by_contra hne
    have hm : e0.presence = Presence.Missing := by
      cases hq : e0.presence with
      | Present => exact absurd hq hne
      | Missing => rfl
    rw [unplugMark_of_missing _ _ _ _ e0 hm] at hp
    exact hne hp

/-- A fresh present entry keeps the invariant when its serial number is not 0
and no present entry has it. -/
theorem invariant_append (list : WDFCHILDLIST) (d : PDO_IDENTIFICATION_DESCRIPTION)
    (h1 : ∀ s, (list.filter (ChildEntry.presentWith s)).length ≤ 1)
    (h2 : ∀ e ∈ list, e.presence = Presence.Present → e.description.SerialNo ≠ 0)
    (hd : d.SerialNo ≠ 0)
    (hfree : list.any (ChildEntry.presentWith d.SerialNo) = false) :
    (∀ s, ((list ++ [(⟨d, Presence.Present⟩ : ChildEntry)]).filter
      (ChildEntry.presentWith s)).length ≤ 1) ∧
    (∀ e ∈ list ++ [(⟨d, Presence.Present⟩ : ChildEntry)],
      e.presence = Presence.Present → e.description.SerialNo ≠ 0) := by
  constructor
  · intro s
    rw [List.filter_append, List.length_append]
    by_cases hs : d.SerialNo = s
    · have hnil : list.filter (ChildEntry.presentWith s) = [] := by
        rw [List.filter_eq_nil_iff]
        intro e he hc
        rw [← hs] at hc
        have : list.any (ChildEntry.presentWith d.SerialNo) = true :=
          List.any_eq_true.mpr ⟨e, he, hc⟩
        rw [hfree] at this
        exact Bool.false_ne_true this
      rw [hnil]
      simp [List.filter_cons]
      split <;> simp
    · have : ChildEntry.presentWith s (⟨d, Presence.Present⟩ : ChildEntry) = false := by
        simp [ChildEntry.presentWith, hs]
      simp [List.filter_cons, this]
      have h := h1 s
      simpa using h
  · intro e he hp
    rcases List.mem_append.mp he with h | h
    · exact h2 e h hp
    · rw [List.mem_singleton.mp h]
      exact hd

/-- Either `Bus_PlugInDevice` leaves the child list as it is, or it appends a
present entry whose serial number is not 0 and was that of no present entry. -/
theorem Bus_PlugInDevice_list_shape (p : Platform)
    (PdoPrepare : EmulationTargetPDO → NTSTATUS) (list : WDFCHILDLIST)
    (Request : WDFREQUEST VIGEM_PLUGIN_TARGET) (IsInternal : Bool) :
    (Bus_PlugInDevice p PdoPrepare list Request IsInternal).list = list ∨
    ∃ d : PDO_IDENTIFICATION_DESCRIPTION, d.SerialNo ≠ 0 ∧
      list.any (ChildEntry.presentWith d.SerialNo) = false ∧
      (Bus_PlugInDevice p PdoPrepare list Request IsInternal).list =
        list ++ [⟨d, Presence.Present⟩] := by
  by_cases hshort : Request.InputBufferLength < p.sizeofPlugIn
  · left
    unfold Bus_PlugInDevice WdfRequestRetrieveInputBuffer
    simp [hshort, NT_SUCCESS_STATUS_BUFFER_TOO_SMALL]
  · by_cases hs : (p.sizeofPlugIn != Request.InputBuffer.Size ||
        Request.InputBufferLength != Request.InputBuffer.Size) = true
    · left
      unfold Bus_PlugInDevice WdfRequestRetrieveInputBuffer
      simp only [hshort, if_false, NT_SUCCESS_STATUS_SUCCESS]
      simp [hs]
    · by_cases hz : Request.InputBuffer.SerialNo = 0
      · left
        unfold Bus_PlugInDevice WdfRequestRetrieveInputBuffer
        simp only [hshort, if_false, NT_SUCCESS_STATUS_SUCCESS]
        simp [hs, hz]
      · cases hf : Request.FileObject with
        | none =>
          left
          unfold Bus_PlugInDevice WdfRequestRetrieveInputBuffer
          simp only [hshort, if_false, NT_SUCCESS_STATUS_SUCCESS]
          simp [hs, hz, hf]
        | some fo =>
          cases hd : fo.FileData with
          | none =>
            left
            unfold Bus_PlugInDevice WdfRequestRetrieveInputBuffer
            simp only [hshort, if_false, NT_SUCCESS_STATUS_SUCCESS]
            simp [hs, hz, hf, hd]
          | some fd =>
            have hsz : p.sizeofPlugIn = Request.InputBuffer.Size ∧
                Request.InputBufferLength = Request.InputBuffer.Size := by
              simpa using hs
            have hfile : Request.FileObject = some ⟨some fd⟩ := by
              rw [hf, ← hd]
            have hlen : Request.InputBufferLength = p.sizeofPlugIn := by
              rw [hsz.2, hsz.1]
            cases hT : newTarget p Request.InputBuffer fd.SessionId with
            | none =>
              left
              rw [Bus_PlugInDevice_validated p PdoPrepare list Request IsInternal fd hlen
                hsz.1.symm hz hfile, hT]
            | some T =>
              rcases (Bus_PlugInDevice_list_cases p PdoPrepare list Request IsInternal fd T
                hlen hsz.1.symm hz hfile hT).2 with h | h
              · exact Or.inl h
              · exact Or.inr ⟨_, hz, h.1, h.2⟩

/-- One call keeps the invariant. -/
theorem invariant_apply (p : Platform) (list : WDFCHILDLIST) (c : Call)
    (h1 : ∀ s, (list.filter (ChildEntry.presentWith s)).length ≤ 1)
    (h2 : ∀ e ∈ list, e.presence = Presence.Present → e.description.SerialNo ≠ 0) :
    (∀ s, ((Call.apply p list c).filter (ChildEntry.presentWith s)).length ≤ 1) ∧
    (∀ e ∈ Call.apply p list c,
      e.presence = Presence.Present → e.description.SerialNo ≠ 0) := by
  cases c with
  | plugIn PdoPrepare Request IsInternal =>
    simp only [Call.apply]
    rcases Bus_PlugInDevice_list_shape p PdoPrepare list Request IsInternal with
      h | ⟨d, hd, hfree, h⟩
    · rw [h]
      exact ⟨h1, h2⟩
    · rw [h]
      exact invariant_append list d h1 h2 hd hfree
  | unPlug Request IsInternal =>
    simp only [Call.apply]
    rcases Bus_UnPlugDevice_list_cases p Request IsInternal with h | ⟨fd, h⟩
    · rw [h]
      exact ⟨h1, h2⟩
    · rw [h]
      exact invariant_map_unplugMark _ _ _ _ list h1 h2

/-- The invariant holds after any calls from a list that has it. -/
theorem invariant_foldl (p : Platform) (calls : List Call) (list : WDFCHILDLIST)
    (h1 : ∀ s, (list.filter (ChildEntry.presentWith s)).length ≤ 1)
    (h2 : ∀ e ∈ list, e.presence = Presence.Present → e.description.SerialNo ≠ 0) :
    (∀ s, ((calls.foldl (Call.apply p) list).filter (ChildEntry.presentWith s)).length ≤ 1) ∧
    (∀ e ∈ calls.foldl (Call.apply p) list,
      e.presence = Presence.Present → e.description.SerialNo ≠ 0) := by
  induction calls generalizing list with
  | nil => exact ⟨h1, h2⟩
  | cons c rest ih =>
    rw [List.foldl_cons]
    have h := invariant_apply p list c h1 h2
    exact ih (Call.apply p list c) h.1 h.2

/-- C9: after any finite sequence of `Bus_PlugInDevice` and `Bus_UnPlugDevice`
calls from the empty child list (any requests, sessions, flags and `PdoPrepare`
answers) at most one entry with a given serial number is present, and no
present entry has the serial number 0. -/
theorem runCalls_invariant (p : Platform) (calls : List Call) :
    (∀ s, ((runCalls p calls).filter
      (fun e => e.presence == Presence.Present && e.description.SerialNo == s)).length ≤ 1) ∧
    (∀ e ∈ runCalls p calls,
      e.presence = Presence.Present → e.description.SerialNo ≠ 0) := by
  have h := invariant_foldl p calls [] (fun _ => by simp) (fun _ he => by simp at he)
  exact h
end ViGEm
